import Mathlib

/-!
Verification of the SystemSync backup/restore engine
(`system_sync/backup_manager.py`, `system_sync/local_storage.py`,
`system_sync/database.py`) against its natural-language specification.

The filesystem is modelled as an association list from paths (component
lists) to byte contents; the engine's operations are translated into pure
Lean functions over this model, with fault injection parameters for the
failure branches the code handles (download failure, copy truncation,
catalog-insert failure).
-/

namespace SystemSync

/-- A filesystem path, as a list of components (the Python code works with
absolute path strings; components model `os.path.join` segments). -/
abbrev FsPath := List String

/-- File contents as a byte list. -/
abbrev Content := List Nat

/-- A filesystem: an association list from file paths to contents.
Directories exist implicitly as proper prefixes of file paths. -/
abbrev FS := List (FsPath × Content)

/-- Contents of the file at `p`, if one exists (first match wins). -/
def lookupFile : FS → FsPath → Option Content
  | [], _ => none
  | e :: rest, p => if e.1 = p then some e.2 else lookupFile rest p

/-- Strip a root from a path: `stripRoot r p = some q` iff `p = r ++ q`. -/
def stripRoot : FsPath → FsPath → Option FsPath
  | [], q => some q
  | _ :: _, [] => none
  | a :: as, b :: bs => if a = b then stripRoot as bs else none

/-- Files strictly under directory `p`, with their paths relative to `p`
(the model of `os.walk` / `Path.rglob` restricted to files). -/
def filesUnder (fs : FS) (p : FsPath) : List (FsPath × Content) :=
  fs.filterMap (fun e =>
    match stripRoot p e.1 with
    | none => none
    | some [] => none
    | some r => some (r, e.2))

/-- `os.path.isfile`. -/
def isFile (fs : FS) (p : FsPath) : Bool :=
  (lookupFile fs p).isSome

/-- `os.path.isdir`: some file lies strictly under `p`. -/
def isDir (fs : FS) (p : FsPath) : Bool :=
  !(filesUnder fs p).isEmpty

/-- `os.path.exists`. -/
def pathExists (fs : FS) (p : FsPath) : Bool :=
  isFile fs p || isDir fs p

/-- A setting descriptor (`{name, path, type, size}`); the Python dict's
`type` key is the field `stype` here (`type` is reserved in Lean). -/
structure Setting where
  name : String
  path : FsPath
  stype : String
  size : Nat
deriving DecidableEq

/-- `valid_settings`: descriptors whose `path` exists on disk
(backup_manager.py lines 28-31). -/
def validOf (fs : FS) (settings : List Setting) : List Setting :=
  settings.filter (fun s => pathExists fs s.path)

/-- `os.path.basename` of a component path. -/
def basename (p : FsPath) : String := p.getLastD ""

/-- Size of a source: direct byte size for a file, recursive sum of file
sizes for a directory (backup_manager.py lines 43-46). -/
def settingSize (fs : FS) (p : FsPath) : Nat :=
  if isFile fs p then ((lookupFile fs p).getD []).length
  else ((filesUnder fs p).map (fun rc => rc.2.length)).sum

/-- The sizing loop of `create_backup` (lines 40-47): accumulates
`total_size` and stores the running total into each descriptor's `size`
field; returns the updated descriptors and the final total. -/
def sizeSettings (fs : FS) : List Setting → Nat → List Setting × Nat
  | [], total => ([], total)
  | s :: rest, total =>
    let t := total + settingSize fs s.path
    let r := sizeSettings fs rest t
    ({ s with size := t } :: r.1, r.2)

/-- Remove the file at `p` (all association-list entries with that key). -/
def removeFile : FS → FsPath → FS
  | [], _ => []
  | e :: rest, p => if e.1 = p then removeFile rest p else e :: removeFile rest p

/-- Write (create or overwrite) the file at `p`. -/
def writeFile (fs : FS) (p : FsPath) (c : Content) : FS :=
  (p, c) :: removeFile fs p

/-- Staging of one descriptor into the temporary directory
(backup_manager.py lines 63-87): a file source is copied to
`<type>/<basename(path)>`; a directory source is walked and each file is
copied to `<type>/<basename(path)>/<relative path>`. -/
def stageSetting (fs : FS) (s : Setting) : List (FsPath × Content) :=
  if isFile fs s.path then
    match lookupFile fs s.path with
    | some c => [([s.stype, basename s.path], c)]
    | none => []
  else
    (filesUnder fs s.path).map (fun rc => (s.stype :: basename s.path :: rc.1, rc.2))

/-- Staging of all valid descriptors; the sealed archive's entries are
exactly the staged files with paths relative to the staging root
(zip step, lines 100-105). -/
def stageAll (fs : FS) (settings : List Setting) : FS :=
  settings.foldl (fun acc s => (stageSetting fs s).foldl (fun a e => writeFile a e.1 e.2) acc) []

/-- Number of files actually copied during staging (the `processed_files`
counter: 1 per file source, one per file walked under a directory source). -/
def processedCount (fs : FS) (valid : List Setting) : Nat :=
  (valid.map (fun s => if isFile fs s.path then 1 else (filesUnder fs s.path).length)).sum

/-- `total_files` (line 58): `Path(p).rglob` applied to every valid
descriptor counts files recursively, and yields nothing for a file path,
so only directory sources contribute. -/
def totalFilesCount (fs : FS) (valid : List Setting) : Nat :=
  (valid.map (fun s => (filesUnder fs s.path).length)).sum

/-- Percentages passed to the progress callback during staging: the k-th
copied file reports `k / total_files * 50`. When `total_files = 0` the
division raises `ZeroDivisionError`, which the per-file handler swallows,
so no staging value is reported at all. -/
def stagingEvents (fs : FS) (valid : List Setting) : List ℚ :=
  if totalFilesCount fs valid = 0 then []
  else (List.range (processedCount fs valid)).map
    (fun (k : ℕ) => ((k : ℚ) + 1) / (totalFilesCount fs valid : ℚ) * 50)

/-- Outcome of a `create_backup` call as observed by the caller: a boolean
return value, or an unhandled exception escaping the function. -/
inductive BackupResult where
  | ok (b : Bool)
  | unboundLocalError
deriving DecidableEq

/-- Observable effects of one `create_backup` run (with a progress callback
attached): callback values, returned result, staged archive, the sized
descriptor list embedded in the metadata, and `total_size`. -/
structure BackupRun where
  events : List ℚ
  result : BackupResult
  archive : FS
  sizedSettings : List Setting
  totalBytes : Nat
deriving DecidableEq

/-- One `create_backup` run. `uploadOk` injects the success of the storage
upload. When no descriptor path exists, the code returns `False` inside
`try`, but the `finally` block then evaluates `os.path.exists(backup_path)`
with `backup_path` not yet assigned (it is assigned only at line 52), so an
`UnboundLocalError` escapes instead. -/
def createBackupRun (fs : FS) (settings : List Setting) (uploadOk : Bool) : BackupRun :=
  let valid := validOf fs settings
  if valid.isEmpty then
    { events := [], result := .unboundLocalError, archive := [], sizedSettings := [], totalBytes := 0 }
  else
    let sized := sizeSettings fs valid 0
    let arch := stageAll fs valid
    let ev := stagingEvents fs valid
    if processedCount fs valid = 0 then
      { events := ev, result := .ok false, archive := arch,
        sizedSettings := sized.1, totalBytes := sized.2 }
    else
      { events := ev ++ 75 :: (if uploadOk then [100] else []),
        result := .ok uploadOk, archive := arch,
        sizedSettings := sized.1, totalBytes := sized.2 }

/-- The `selected_files` skip test (restore_backup line 208): skip iff the
selection is present, non-empty (Python truthiness of the list), and does
not contain the descriptor's path. -/
def skipSetting (sel : Option (List FsPath)) (p : FsPath) : Bool :=
  match sel with
  | none => false
  | some l => !l.isEmpty && !(decide (p ∈ l))

/-- `shutil.copytree(src, dst, dirs_exist_ok=True)`: every file of the
source tree is written under `dst` at its relative path, overwriting files
of the same path and leaving all other pre-existing files in place. -/
def copytreeMerge (fs : FS) (src : List (FsPath × Content)) (dst : FsPath) : FS :=
  src.foldl (fun a rc => writeFile a (dst ++ rc.1) rc.2) fs

/-- Application of one descriptor during restore (lines 212-231): the
source is `<scratch>/<type>`; a file source is copied with `copy2` (into a
directory target it lands inside it under the source's basename); a
directory source is merged into the target with
`copytree(dirs_exist_ok=True)`, except that a file already at the target
makes `copytree` raise, which the per-descriptor handler swallows; a
missing source is skipped. -/
def applySetting (scratch fs : FS) (s : Setting) : FS :=
  if isFile scratch [s.stype] then
    match lookupFile scratch [s.stype] with
    | some c =>
      if isDir fs s.path then writeFile fs (s.path ++ [s.stype]) c
      else writeFile fs s.path c
    | none => fs
  else if isDir scratch [s.stype] then
    if isFile fs s.path then fs
    else copytreeMerge fs (filesUnder scratch [s.stype]) s.path
  else fs

/-- The restore apply loop over the metadata descriptor list, honoring the
optional selection. -/
def restoreFS (fs scratch : FS) (settings : List Setting) (sel : Option (List FsPath)) : FS :=
  settings.foldl (fun a s => if skipSetting sel s.path then a else applySetting scratch a s) fs

/-- Percentages reported by the restore apply loop: the descriptor at
1-based index `i` reports `50 + i / total * 50`, and skipped descriptors
report nothing (the `continue` bypasses the callback). -/
def restoreLoopEvents (sel : Option (List FsPath)) (n : ℚ) : Nat → List Setting → List ℚ
  | _, [] => []
  | i, s :: rest =>
    (if skipSetting sel s.path then [] else [50 + ((i : ℚ) / n) * 50])
      ++ restoreLoopEvents sel n (i + 1) rest

/-- Observable effects of one `restore_backup` run: callback values, final
filesystem, result, and the fate of the two temporary artifacts (the
downloaded archive copy and the scratch extraction directory). -/
structure RestoreRun where
  events : List ℚ
  fs : FS
  success : Bool
  tempCreated : Bool
  tempRemoved : Bool
  scratchRemoved : Bool
deriving DecidableEq

/-- One `restore_backup` run. `found`, `downloadOk`, `extractOk` inject the
lookup, download and extraction outcomes. The scratch directory is managed
by a context manager, hence removed on every path it was created on; the
downloaded copy is removed only by the `os.remove(temp_path)` on the
success path (lines 243-244). -/
def restoreRun (found downloadOk extractOk : Bool) (scratch : FS)
    (settings : List Setting) (sel : Option (List FsPath)) (fs : FS) : RestoreRun :=
  if !found then
    { events := [], fs := fs, success := false,
      tempCreated := false, tempRemoved := false, scratchRemoved := true }
  else if !downloadOk then
    { events := [], fs := fs, success := false,
      tempCreated := true, tempRemoved := false, scratchRemoved := true }
  else if !extractOk then
    { events := [25], fs := fs, success := false,
      tempCreated := true, tempRemoved := false, scratchRemoved := true }
  else
    { events := 25 :: 50 :: restoreLoopEvents sel (settings.length : ℚ) 1 settings,
      fs := restoreFS fs scratch settings sel, success := true,
      tempCreated := true, tempRemoved := true, scratchRemoved := true }

/-- An `applications` row (database.py; the columns the engine writes that
matter here — `category`, `type`, `settings` behave like `size`). -/
structure AppRow where
  appId : Nat
  name : String
  path : String
  size : Nat
deriving DecidableEq

/-- A `backups` row. -/
structure BackupRow where
  appId : Nat
  filename : String
  storagePath : String
  size : Nat
deriving DecidableEq

/-- Catalog (applications and backups tables) plus the object store
directory, keyed by storage path and holding each object's byte count. -/
structure Store where
  apps : List AppRow
  backups : List BackupRow
  objects : List (String × Nat)
deriving DecidableEq

/-- Object-store lookup by storage path. -/
def objLookup : List (String × Nat) → String → Option Nat
  | [], _ => none
  | e :: rest, p => if e.1 = p then some e.2 else objLookup rest p

/-- Object removal (`os.remove`). -/
def objRemove : List (String × Nat) → String → List (String × Nat)
  | [], _ => []
  | e :: rest, p => if e.1 = p then objRemove rest p else e :: objRemove rest p

/-- Object write (`open(path, 'wb')` truncates any existing object). -/
def objWrite (objs : List (String × Nat)) (p : String) (n : Nat) : List (String × Nat) :=
  (p, n) :: objRemove objs p

/-- `Database.add_application`: upsert keyed on `(name, path)`, refreshing
the mutable columns on update; returns the store and the application id. -/
def addApplication (st : Store) (name path : String) (size : Nat) : Store × Nat :=
  match st.apps.find? (fun a => a.name == name && a.path == path) with
  | some a =>
    ({ st with apps := st.apps.map (fun b =>
        if b.name == name && b.path == path then { b with size := size } else b) },
     a.appId)
  | none =>
    ({ st with apps := st.apps ++ [{ appId := st.apps.length + 1, name := name,
                                     path := path, size := size }] },
     st.apps.length + 1)

/-- Outcome of `LocalStorage.upload_backup` (the spec's `put`). -/
inductive UploadOutcome where
  | ok
  | sizeMismatch
  | copyVerificationFailed
  | insertFailed
deriving DecidableEq

/-- The tolerance guard (local_storage.py lines 40-43): `if total_size and
abs(file_size - total_size) > 1024` — Python truthiness makes `None` and
`0` skip the check entirely. -/
def sizeMismatchCheck (fileSize : Nat) (totalSize : Option Nat) : Bool :=
  match totalSize with
  | none => false
  | some t => t != 0 && decide (((fileSize : Int) - (t : Int)).natAbs > 1024)

/-- `LocalStorage.upload_backup`. `truncation` injects how many bytes the
chunked copy loses; `insertOk` injects the success of the backup-record
insert. Mirrors local_storage.py lines 30-118: size tolerance check,
application upsert, copy, copy verification (removing the object on
mismatch), record insert (removing the object on failure). Returns the
final store, the returned storage path (`None` on failure) and the
outcome. -/
def uploadBackup (st : Store) (appName filePath fileName : String) (fileSize : Nat)
    (totalSize : Option Nat) (truncation : Nat) (insertOk : Bool) :
    Store × Option String × UploadOutcome :=
  if sizeMismatchCheck fileSize totalSize then (st, none, .sizeMismatch)
  else
    let r1 := addApplication st appName filePath fileSize
    let storagePath := appName ++ "/" ++ fileName
    let copied := fileSize - truncation
    let st2 := { r1.1 with objects := objWrite r1.1.objects storagePath copied }
    if copied != fileSize then
      ({ st2 with objects := objRemove st2.objects storagePath }, none, .copyVerificationFailed)
    else if insertOk then
      ({ st2 with backups := st2.backups ++
          [{ appId := r1.2, filename := fileName, storagePath := storagePath, size := fileSize }] },
       some storagePath, .ok)
    else
      ({ st2 with objects := objRemove st2.objects storagePath }, none, .insertFailed)

/-- Running totals of a list of sizes starting from `acc`: what the sizing
loop stores into the successive descriptors' `size` fields. -/
def runningTotals : List Nat → Nat → List Nat
  | [], _ => []
  | x :: xs, acc => (acc + x) :: runningTotals xs (acc + x)

/-! Concrete inputs used by the claim theorems, witnesses and
counterexamples. -/

/-- A filesystem with a single directory `cfg/editor` holding one file. -/
def fs1 : FS := [(["cfg", "editor", "file1"], [65])]

/-- One directory-type descriptor for `cfg/editor`. -/
def settings1 : List Setting := [{ name := "Editor", path := ["cfg", "editor"], stype := "data", size := 0 }]

/-- The backup run over `fs1`. -/
def run1 : BackupRun := createBackupRun fs1 settings1 true

/-- A descriptor list whose single path does not exist on an empty disk. -/
def settings3 : List Setting := [{ name := "X", path := ["nope"], stype := "data", size := 0 }]

/-- The concrete scenario of spec §8: directory `cfg/editor` with two files
of 100 and 50 bytes. -/
def fs4 : FS :=
  [(["cfg", "editor", "file1"], List.replicate 100 65),
   (["cfg", "editor", "file2"], List.replicate 50 66)]

/-- The descriptor of the concrete scenario. -/
def settings4 : List Setting := [{ name := "Editor", path := ["cfg", "editor"], stype := "data", size := 0 }]

/-- The backup run of the concrete scenario. -/
def run4 : BackupRun := createBackupRun fs4 settings4 true

/-- An extracted archive holding one file under the `data` partition. -/
def scratch5 : FS := [(["data", "f1"], [1])]

/-- A target filesystem with a pre-existing file under the target path. -/
def fs5 : FS := [(["tgt", "old"], [9])]

/-- A directory-type descriptor targeting `tgt`. -/
def s5 : Setting := { name := "S", path := ["tgt"], stype := "data", size := 0 }

/-- Two single-file sources of 100 and 50 bytes. -/
def fs6 : FS := [(["a"], List.replicate 100 0), (["b"], List.replicate 50 0)]

/-- Two file-type descriptors. -/
def ss6 : List Setting :=
  [{ name := "A", path := ["a"], stype := "t1", size := 0 },
   { name := "B", path := ["b"], stype := "t2", size := 0 }]

/-- A filesystem whose only descriptor source is a directory. -/
def fsW : FS := [(["d", "x"], [0])]

/-- One directory-type descriptor over `fsW`. -/
def settingsW : List Setting := [{ name := "D", path := ["d"], stype := "data", size := 0 }]

/-- A mixed source list: one directory with one file, plus two plain files.
`total_files` counts only the directory's file, so the staged-file
percentages overshoot. -/
def fs8 : FS := [(["d", "x"], [0]), (["a"], [0]), (["b"], [0])]

/-- The three descriptors over `fs8`, directory first. -/
def settings8 : List Setting :=
  [{ name := "D", path := ["d"], stype := "t1", size := 0 },
   { name := "A", path := ["a"], stype := "t2", size := 0 },
   { name := "B", path := ["b"], stype := "t3", size := 0 }]

/-- An empty catalog and object store. -/
def store0 : Store := { apps := [], backups := [], objects := [] }

/-! Helper lemmas about the filesystem model. -/

theorem lookupFile_removeFile_ne (fs : FS) (p q : FsPath) (h : q ≠ p) :
    lookupFile (removeFile fs p) q = lookupFile fs q := by
  induction fs with
  | nil => rfl
  | cons e rest ih =>
    by_cases he : e.1 = p
    · have hq : ¬ e.1 = q := fun hq => h (by rw [← hq, he])
      have hpq : ¬ p = q := fun hpq => h hpq.symm
      simp [removeFile, lookupFile, he, hq, hpq, ih]
    · simp only [removeFile, if_neg he, lookupFile]
      by_cases hq : e.1 = q
      · simp [hq]
      · simp [hq, ih]

theorem lookupFile_writeFile_ne (fs : FS) (p q : FsPath) (c : Content) (h : q ≠ p) :
    lookupFile (writeFile fs p c) q = lookupFile fs q := by
  have hq : ¬ p = q := fun hpq => h hpq.symm
  simp [writeFile, lookupFile, hq, lookupFile_removeFile_ne fs p q h]

theorem copytreeMerge_lookup_ne (src : List (FsPath × Content)) :
    ∀ (fs : FS) (dst q : FsPath), (∀ rc ∈ src, dst ++ rc.1 ≠ q) →
    lookupFile (copytreeMerge fs src dst) q = lookupFile fs q := by
  induction src with
  | nil => intro fs dst q _; rfl
  | cons rc rest ih =>
    intro fs dst q h
    have h1 : dst ++ rc.1 ≠ q := h rc (List.mem_cons_self rc rest)
    show lookupFile (copytreeMerge (writeFile fs (dst ++ rc.1) rc.2) rest dst) q = _
    rw [ih _ _ _ (fun x hx => h x (List.mem_cons_of_mem _ hx))]
    exact lookupFile_writeFile_ne _ _ _ _ (fun hq => h1 hq.symm)

theorem objRemove_cons_self (l : List (String × Nat)) (p : String) (n : Nat) :
    objRemove ((p, n) :: l) p = objRemove l p := by
  simp [objRemove]

theorem objRemove_of_lookup_none (l : List (String × Nat)) (p : String)
    (h : objLookup l p = none) : objRemove l p = l := by
  induction l with
  | nil => rfl
  | cons e rest ih =>
    simp only [objLookup] at h
    by_cases he : e.1 = p
    · simp [he] at h
    · simp only [objRemove, if_neg he]
      rw [ih (by simpa [he] using h)]

theorem addApplication_backups (st : Store) (name path : String) (size : Nat) :
    (addApplication st name path size).1.backups = st.backups := by
  unfold addApplication
  split <;> rfl

theorem addApplication_objects (st : Store) (name path : String) (size : Nat) :
    (addApplication st name path size).1.objects = st.objects := by
  unfold addApplication
  split <;> rfl

theorem sizeSettings_sizes (fs : FS) :
    ∀ (ss : List Setting) (acc : Nat),
    (sizeSettings fs ss acc).1.map (fun s => s.size)
        = runningTotals (ss.map (fun s => settingSize fs s.path)) acc
    ∧ (sizeSettings fs ss acc).2 = acc + (ss.map (fun s => settingSize fs s.path)).sum := by
  intro ss
  induction ss with
  | nil => intro acc; exact ⟨rfl, by simp [sizeSettings]⟩
  | cons s rest ih =>
    intro acc
    obtain ⟨h1, h2⟩ := ih (acc + settingSize fs s.path)
    constructor
    · simp [sizeSettings, runningTotals, h1]
    · simp [sizeSettings, h2, Nat.add_assoc]

/-! Helper lemmas about the progress-event sequences. -/

theorem eventVal_mono (T : ℚ) (hT : 0 ≤ T) {k j : Nat} (h : k ≤ j) :
    ((k : ℚ) + 1) / T * 50 ≤ ((j : ℚ) + 1) / T * 50 := by
  have h0 : (k : ℚ) ≤ (j : ℚ) := by exact_mod_cast h
  have h1 : ((k : ℚ) + 1) ≤ (j : ℚ) + 1 := by linarith
  have h2 : (0 : ℚ) ≤ T⁻¹ := inv_nonneg.mpr hT
  rw [div_eq_mul_inv, div_eq_mul_inv]
  exact mul_le_mul_of_nonneg_right (mul_le_mul_of_nonneg_right h1 h2) (by norm_num)

theorem stagingEvents_pairwise (fs : FS) (valid : List Setting) :
    (stagingEvents fs valid).Pairwise (· ≤ ·) := by
  unfold stagingEvents
  split
  · exact List.Pairwise.nil
  · refine List.Pairwise.map _ ?_ (List.pairwise_lt_range _)
    intro a b hab
    exact eventVal_mono _ (Nat.cast_nonneg _) (le_of_lt hab)

theorem stagingEvents_le_50 (fs : FS) (valid : List Setting)
    (hTP : processedCount fs valid ≤ totalFilesCount fs valid) :
    ∀ x ∈ stagingEvents fs valid, x ≤ 50 := by
  intro x hx
  unfold stagingEvents at hx
  split at hx
  · simp at hx
  · next hT =>
    rw [List.mem_map] at hx
    obtain ⟨k, hk, rfl⟩ := hx
    rw [List.mem_range] at hk
    have hTpos : (0 : ℚ) < (totalFilesCount fs valid : ℚ) := by
      exact_mod_cast Nat.pos_of_ne_zero hT
    have hk1 : ((k : ℚ) + 1) ≤ (totalFilesCount fs valid : ℚ) := by
      have hn : k + 1 ≤ totalFilesCount fs valid := Nat.succ_le_of_lt (lt_of_lt_of_le hk hTP)
      exact_mod_cast hn
    have hdiv : ((k : ℚ) + 1) / (totalFilesCount fs valid : ℚ) ≤ 1 :=
      (div_le_one hTpos).mpr hk1
    calc ((k : ℚ) + 1) / (totalFilesCount fs valid : ℚ) * 50
        ≤ 1 * 50 := mul_le_mul_of_nonneg_right hdiv (by norm_num)
      _ = 50 := one_mul 50

theorem totalFiles_eq_processed (fs : FS) :
    ∀ (valid : List Setting), (∀ s ∈ valid, isFile fs s.path = false) →
    totalFilesCount fs valid = processedCount fs valid := by
  intro valid
  induction valid with
  | nil => intro _; rfl
  | cons s rest ih =>
    intro h
    have hs := h s (List.mem_cons_self s rest)
    have hr := ih (fun a ha => h a (List.mem_cons_of_mem _ ha))
    simp [totalFilesCount, processedCount, hs] at hr ⊢
    exact hr

theorem eventStep_le (n : ℚ) (hn : 0 ≤ n) (i : Nat) :
    50 + ((i : ℚ) / n) * 50 ≤ 50 + (((i + 1 : Nat) : ℚ) / n) * 50 := by
  have hle : (i : ℚ) / n ≤ ((i + 1 : Nat) : ℚ) / n := by
    rw [div_eq_mul_inv, div_eq_mul_inv]
    refine mul_le_mul_of_nonneg_right ?_ (inv_nonneg.mpr hn)
    push_cast
    linarith
  have := mul_le_mul_of_nonneg_right hle (by norm_num : (0 : ℚ) ≤ 50)
  linarith

theorem restoreLoopEvents_lb (sel : Option (List FsPath)) (n : ℚ) (hn : 0 ≤ n) :
    ∀ (l : List Setting) (i : Nat) (x : ℚ), x ∈ restoreLoopEvents sel n i l →
    50 + ((i : ℚ) / n) * 50 ≤ x := by
  intro l
  induction l with
  | nil => intro i x hx; simp [restoreLoopEvents] at hx
  | cons s rest ih =>
    intro i x hx
    unfold restoreLoopEvents at hx
    rw [List.mem_append] at hx
    cases hx with
    | inl h =>
      split at h
      · simp at h
      · rw [List.mem_singleton] at h
        exact le_of_eq h.symm
    | inr h =>
      exact le_trans (eventStep_le n hn i) (ih (i + 1) x h)

theorem restoreLoopEvents_ge_50 (sel : Option (List FsPath)) (n : ℚ) (hn : 0 ≤ n)
    (l : List Setting) (i : Nat) :
    ∀ x ∈ restoreLoopEvents sel n i l, (50 : ℚ) ≤ x := by
  intro x hx
  have hlb := restoreLoopEvents_lb sel n hn l i x hx
  have h0 : (0 : ℚ) ≤ ((i : ℚ) / n) * 50 :=
    mul_nonneg (div_nonneg (Nat.cast_nonneg i) hn) (by norm_num)
  linarith

theorem restoreLoopEvents_pairwise (sel : Option (List FsPath)) (n : ℚ) (hn : 0 ≤ n) :
    ∀ (l : List Setting) (i : Nat), (restoreLoopEvents sel n i l).Pairwise (· ≤ ·) := by
  intro l
  induction l with
  | nil => intro i; simp [restoreLoopEvents]
  | cons s rest ih =>
    intro i
    unfold restoreLoopEvents
    split
    · simpa using ih (i + 1)
    · rw [List.singleton_append, List.pairwise_cons]
      refine ⟨?_, ih (i + 1)⟩
      intro x hx
      exact le_trans (eventStep_le n hn i) (restoreLoopEvents_lb sel n hn rest (i + 1) x hx)

/-! The claims. -/

/-- C1: the round-trip property fails on the code. Backing up the directory
`cfg/editor` (one file `file1`) stages it at `data/editor/file1`, but
restore copies the whole `data` partition onto `cfg/editor`, producing
`cfg/editor/editor/file1`: the tree at the original path is not
byte-identical to its backup-time state (it gained a nested copy), so
backup followed by a full restore is not the identity. -/
theorem claim_C1_roundtrip_bug :
    filesUnder (restoreRun true true true run1.archive run1.sizedSettings none fs1).fs
        ["cfg", "editor"]
      ≠ filesUnder fs1 ["cfg", "editor"]
    ∧ lookupFile (restoreRun true true true run1.archive run1.sizedSettings none fs1).fs
        ["cfg", "editor", "editor", "file1"] = some [65] := by
  decide

/-- C3: when no descriptor path exists, `create_backup` does not return the
boolean `False` the claim describes: the `return False` at line 35 runs
inside `try`, and the `finally` block then evaluates
`os.path.exists(backup_path)` with the local `backup_path` still unassigned
(it is assigned only at line 52), so an `UnboundLocalError` escapes the
engine boundary instead of a boolean failure. -/
theorem claim_C3_novalid_bug :
    (createBackupRun [] settings3 true).result = BackupResult.unboundLocalError
    ∧ (createBackupRun [] settings3 true).result ≠ BackupResult.ok false := by
  decide

/-- C4 counterexample: in the concrete scenario the sealed archive's
entries are not `data/file1`, `data/file2` — the staging layout inserts the
source's basename, so the entries are `data/editor/file1`,
`data/editor/file2`. -/
theorem claim_C4_cex :
    ¬ (run4.archive.map (fun e => e.1)).Perm [["data", "file1"], ["data", "file2"]] := by
  decide

/-- C4 (amended): a directory source is staged at
`<type>/<basename>/<relative path>` (and a file source at
`<type>/<basename>`), not directly under the type partition; the concrete
scenario yields `total_bytes = 150` and archive entries
`data/editor/file1` and `data/editor/file2`. -/
theorem claim_C4_staging_layout :
    run4.totalBytes = 150
    ∧ (run4.archive.map (fun e => e.1)).Perm
        [["data", "editor", "file1"], ["data", "editor", "file2"]] := by
  decide

/-- C5 counterexample: restoring a directory descriptor onto a target that
already holds a file `old` does not remove the target first: the result at
the target path is the archive content merged over the old content, not
exactly the archive content, and the pre-existing file survives. -/
theorem claim_C5_cex :
    filesUnder (applySetting scratch5 fs5 s5) ["tgt"] ≠ filesUnder scratch5 ["data"]
    ∧ (["old"], [9]) ∈ filesUnder (applySetting scratch5 fs5 s5) ["tgt"] := by
  decide

/-- C5 (amended): an existing target is never removed before the restored
copy is written. A directory restore source is merged into the target via
`copytree(dirs_exist_ok=True)`: any pre-existing file whose path is not
overwritten by an archive entry keeps its content — restore is a merge,
not a destructive overwrite. -/
theorem claim_C5_merge (scratch fs : FS) (s : Setting) (q : FsPath) (c : Content)
    (h1 : isFile scratch [s.stype] = false)
    (h2 : isDir scratch [s.stype] = true)
    (h3 : isFile fs s.path = false)
    (h4 : lookupFile fs q = some c)
    (h5 : ∀ rc ∈ filesUnder scratch [s.stype], s.path ++ rc.1 ≠ q) :
    lookupFile (applySetting scratch fs s) q = some c := by
  unfold applySetting
  rw [h1]
  simp only [Bool.false_eq_true, if_false, h2, if_true, h3]
  rw [copytreeMerge_lookup_ne _ _ _ _ h5]
  exact h4

/-- C5 witness: the amended statement at the concrete merge scenario — the
pre-existing file `tgt/old` survives the restore of the `data` partition
onto `tgt`. -/
theorem claim_C5_merge_witness :
    lookupFile (applySetting scratch5 fs5 s5) ["tgt", "old"] = some [9] :=
  claim_C5_merge scratch5 fs5 s5 ["tgt", "old"] [9]
    (by decide) (by decide) (by decide) (by decide) (by decide)

/-- C6 counterexample: with two valid descriptors of 100 and 50 bytes, the
first descriptor's stored `size` is the running total 100, not the final
total 150 — not every descriptor's stored size equals the full cumulative
total. -/
theorem claim_C6_cex :
    ¬ (∀ s ∈ (createBackupRun fs6 ss6 true).sizedSettings,
        s.size = (createBackupRun fs6 ss6 true).totalBytes) := by
  decide

/-- C6 (amended): `create_backup` computes `total_bytes` as the sum over
all valid descriptors of recursive (directory) or direct (file) sizes
before copying, but each descriptor's `size` field receives the running
total after that descriptor (a prefix sum); only the last descriptor's
stored size equals the full total. -/
theorem claim_C6_prefix_sums :
    ∀ (fs : FS) (settings : List Setting) (uploadOk : Bool),
    (createBackupRun fs settings uploadOk).sizedSettings.map (fun s => s.size)
        = runningTotals ((validOf fs settings).map (fun s => settingSize fs s.path)) 0
    ∧ (createBackupRun fs settings uploadOk).totalBytes
        = ((validOf fs settings).map (fun s => settingSize fs s.path)).sum := by
  intro fs settings uploadOk
  obtain ⟨h1, h2⟩ := sizeSettings_sizes fs (validOf fs settings) 0
  rw [Nat.zero_add] at h2
  simp only [createBackupRun]
  split
  · next hempty =>
    rw [List.isEmpty_iff] at hempty
    rw [hempty]
    exact ⟨rfl, rfl⟩
  · split
    · exact ⟨h1, h2⟩
    · exact ⟨h1, h2⟩

/-- C7 counterexample: when the download step fails (and likewise when
extraction fails), the downloaded archive temp copy has been created but is
not removed — `os.remove(temp_path)` lives only on the success path. -/
theorem claim_C7_cex :
    (restoreRun true false true [] [] none []).tempCreated = true
    ∧ (restoreRun true false true [] [] none []).tempRemoved = false
    ∧ (restoreRun true true false [] [] none []).tempCreated = true
    ∧ (restoreRun true true false [] [] none []).tempRemoved = false := by
  decide

/-- C7 (amended): the scratch extraction directory is removed on every exit
path of `restore_backup` (it is managed by a context manager), but the
downloaded archive temp copy is removed exactly on the successful exit: it
survives the download-failure and extraction-failure exits. -/
theorem claim_C7_cleanup :
    ∀ (found downloadOk extractOk : Bool) (scratch : FS) (settings : List Setting)
      (sel : Option (List FsPath)) (fs : FS),
    (restoreRun found downloadOk extractOk scratch settings sel fs).scratchRemoved = true
    ∧ ((restoreRun found downloadOk extractOk scratch settings sel fs).tempRemoved = true
        ↔ (restoreRun found downloadOk extractOk scratch settings sel fs).success = true) := by
  intro found dOk eOk scratch settings sel fs
  cases found <;> cases dOk <;> cases eOk <;> simp [restoreRun]

/-- C2 counterexample: on an empty catalog, a truncated copy makes `put`
fail with `CopyVerificationFailed` and return `None`, yet the catalog is
not exactly as before the call — the Application upsert performed before
the copy has inserted a row that is never rolled back. -/
theorem claim_C2_cex :
    (uploadBackup store0 "app" "/tmp/f.zip" "f.zip" 100 none 1 true).2.2
        = UploadOutcome.copyVerificationFailed
    ∧ (uploadBackup store0 "app" "/tmp/f.zip" "f.zip" 100 none 1 true).2.1 = none
    ∧ (uploadBackup store0 "app" "/tmp/f.zip" "f.zip" 100 none 1 true).1.apps ≠ [] := by
  decide

/-- C2 (amended): if the copy writes fewer bytes than the source, `put`
fails, the partially written object is removed, and no Backup row is
inserted; likewise a failed Backup insert deletes the just-written object.
Provided no object previously existed at the storage path, any failed
`put` returns `None` and leaves the backups table and the object store
exactly as before — but the Application upsert performed before the copy
persists in the catalog. -/
theorem claim_C2_failed_put (st : Store) (appName filePath fileName : String)
    (fileSize : Nat) (totalSize : Option Nat) (truncation : Nat) (insertOk : Bool)
    (hobj : objLookup st.objects (appName ++ "/" ++ fileName) = none)
    (hfail : (uploadBackup st appName filePath fileName fileSize totalSize
        truncation insertOk).2.2 ≠ UploadOutcome.ok) :
    (uploadBackup st appName filePath fileName fileSize totalSize truncation insertOk).1.backups
        = st.backups
    ∧ (uploadBackup st appName filePath fileName fileSize totalSize truncation insertOk).1.objects
        = st.objects
    ∧ (uploadBackup st appName filePath fileName fileSize totalSize truncation insertOk).2.1
        = none := by
  have hrem : objRemove st.objects (appName ++ "/" ++ fileName) = st.objects :=
    objRemove_of_lookup_none _ _ hobj
  cases hm : sizeMismatchCheck fileSize totalSize with
  | true => simp [uploadBackup, hm]
  | false =>
    cases ht : ((fileSize - truncation) != fileSize) with
    | true =>
      simp [uploadBackup, hm, ht, objWrite, objRemove_cons_self,
        addApplication_backups, addApplication_objects, hrem]
    | false =>
      cases insertOk with
      | true =>
        exfalso
        apply hfail
        simp [uploadBackup, hm, ht]
      | false =>
        simp [uploadBackup, hm, ht, objWrite, objRemove_cons_self,
          addApplication_backups, addApplication_objects, hrem]

/-- C2 witness: the amended statement applied at the truncated-copy
counterexample input — the backups table and object store are unchanged
and the call returned `None`. -/
theorem claim_C2_failed_put_witness :
    (uploadBackup store0 "app" "/tmp/f.zip" "f.zip" 100 none 1 true).1.backups = []
    ∧ (uploadBackup store0 "app" "/tmp/f.zip" "f.zip" 100 none 1 true).1.objects = []
    ∧ (uploadBackup store0 "app" "/tmp/f.zip" "f.zip" 100 none 1 true).2.1 = none :=
  claim_C2_failed_put store0 "app" "/tmp/f.zip" "f.zip" 100 none 1 true
    (by decide) (by decide)

/-- C8 counterexample: with a mixed descriptor list (one directory holding
one file, then two plain files), `total_files` counts only the directory's
file, so the staging percentages are 50, 100, 150 and then drop to the
fixed 75 reported after sealing — the callback sequence of `create_backup`
is not monotonically non-decreasing. -/
theorem claim_C8_cex :
    ¬ ((createBackupRun fs8 settings8 true).events).Chain' (· ≤ ·) := by
  have hvalid : validOf fs8 settings8 = settings8 := by decide
  have hP : processedCount fs8 settings8 = 3 := by decide
  have hT : totalFilesCount fs8 settings8 = 1 := by decide
  have hrange : List.range 3 = [0, 1, 2] := by decide
  have hne : settings8.isEmpty = false := by decide
  have hstage : stagingEvents fs8 settings8 = [50, 100, 150] := by
    simp only [stagingEvents, hP, hT, hrange]
    norm_num
  have hev : (createBackupRun fs8 settings8 true).events = [50, 100, 150, 75, 100] := by
    simp only [createBackupRun, hvalid, hP, hne, hstage]
    norm_num
  rw [hev]
  intro hc
  simp only [List.chain'_cons, List.chain'_singleton, and_true] at hc
  have h150 : (150 : ℚ) ≤ 75 := hc.2.2.1
  norm_num at h150

/-- C8 (amended): the percentage sequence reported by `restore_backup` is
always monotonically non-decreasing, and the sequence reported by
`create_backup` is monotonically non-decreasing whenever every valid
descriptor is a directory source (so that `total_files` counts every
copied file); with file-type descriptors present the staging percentages
can overshoot and the sequence can decrease. -/
theorem claim_C8_monotone :
    (∀ (found downloadOk extractOk : Bool) (scratch : FS) (settings : List Setting)
        (sel : Option (List FsPath)) (fs : FS),
        ((restoreRun found downloadOk extractOk scratch settings sel fs).events).Chain' (· ≤ ·))
    ∧ (∀ (fs : FS) (settings : List Setting) (uploadOk : Bool),
        (∀ s ∈ validOf fs settings, isFile fs s.path = false) →
        ((createBackupRun fs settings uploadOk).events).Chain' (· ≤ ·)) := by
  constructor
  · intro found dOk eOk scratch settings sel fs
    have hn : (0 : ℚ) ≤ (settings.length : ℚ) := Nat.cast_nonneg _
    have hmain : (25 :: 50 :: restoreLoopEvents sel (settings.length : ℚ) 1 settings).Chain'
        (· ≤ ·) := by
      apply List.Pairwise.chain'
      rw [List.pairwise_cons]
      constructor
      · intro x hx
        rcases List.mem_cons.mp hx with h | h
        · rw [h]; norm_num
        · have := restoreLoopEvents_ge_50 sel _ hn settings 1 x h
          linarith
      · rw [List.pairwise_cons]
        exact ⟨restoreLoopEvents_ge_50 sel _ hn settings 1,
          restoreLoopEvents_pairwise sel _ hn settings 1⟩
    cases found with
    | false => simp [restoreRun]
    | true =>
      cases dOk with
      | false => simp [restoreRun]
      | true =>
        cases eOk with
        | false => simp [restoreRun]
        | true =>
          have hev : (restoreRun true true true scratch settings sel fs).events
              = 25 :: 50 :: restoreLoopEvents sel (settings.length : ℚ) 1 settings := rfl
          rw [hev]
          exact hmain
  · intro fs settings uploadOk hdirs
    have hTP : processedCount fs (validOf fs settings)
        ≤ totalFilesCount fs (validOf fs settings) :=
      le_of_eq (totalFiles_eq_processed fs _ hdirs).symm
    simp only [createBackupRun]
    split
    · simp
    · split
      · exact (stagingEvents_pairwise fs _).chain'
      · apply List.Pairwise.chain'
        rw [List.pairwise_append]
        refine ⟨stagingEvents_pairwise fs _, ?_, ?_⟩
        · cases uploadOk with
          | true =>
            rw [if_pos rfl, List.pairwise_cons]
            refine ⟨?_, by simp⟩
            intro b hb
            rw [List.mem_singleton] at hb
            rw [hb]
            norm_num
          | false => simp
        · intro x hx y hy
          have hx50 := stagingEvents_le_50 fs _ hTP x hx
          have hy75 : (75 : ℚ) ≤ y := by
            cases uploadOk with
            | true =>
              rw [if_pos rfl] at hy
              rcases List.mem_cons.mp hy with h | h
              · rw [h]
              · rw [List.mem_singleton] at h
                rw [h]; norm_num
            | false =>
              simp only [Bool.false_eq_true, if_false] at hy
              rw [List.mem_singleton] at hy
              rw [hy]
          linarith

/-- C8 witness: the amended statement applied at a directory-only backup
over `fsW` — its callback sequence is non-decreasing. -/
theorem claim_C8_monotone_witness :
    ((createBackupRun fsW settingsW true).events).Chain' (· ≤ ·) :=
  claim_C8_monotone.2 fsW settingsW true (by decide)

/-- C9: calling the restore apply loop with `selected_paths = []` behaves
exactly like calling it with no selection: the Python truthiness test
`if selected_files and ...` never fires for an empty list, so no descriptor
is skipped and every descriptor in the metadata is restored. -/
theorem claim_C9_empty_selection :
    ∀ (fs scratch : FS) (settings : List Setting),
    restoreFS fs scratch settings (some []) = restoreFS fs scratch settings none
    ∧ settings.filter (fun s => !skipSetting (some []) s.path) = settings := by
  intro fs scratch settings
  constructor
  · rfl
  · induction settings with
    | nil => rfl
    | cons s rest ih => simp [List.filter_cons, skipSetting, ih]

/-- C10: the 1024-byte tolerance check runs only when the expected size is
provided and non-zero: with `None` or `0` the outcome is never
`SizeMismatch` whatever the actual archive size, and with no other fault
injected the upload completes successfully for every size. -/
theorem claim_C10_tolerance_skip :
    ∀ (st : Store) (appName filePath fileName : String) (fileSize truncation : Nat)
      (insertOk : Bool),
    (uploadBackup st appName filePath fileName fileSize none truncation insertOk).2.2
        ≠ UploadOutcome.sizeMismatch
    ∧ (uploadBackup st appName filePath fileName fileSize (some 0) truncation insertOk).2.2
        ≠ UploadOutcome.sizeMismatch
    ∧ (uploadBackup st appName filePath fileName fileSize none 0 true).2.2
        = UploadOutcome.ok := by
  intro st appName filePath fileName fileSize truncation insertOk
  refine ⟨?_, ?_, ?_⟩
  · simp only [uploadBackup, sizeMismatchCheck, Bool.false_eq_true, if_false]
    split
    · simp
    · split <;> simp
  · simp only [uploadBackup, sizeMismatchCheck, bne_self_eq_false, Bool.false_and,
      Bool.false_eq_true, if_false]
    split
    · simp
    · split <;> simp
  · simp [uploadBackup, sizeMismatchCheck]

end SystemSync
